import Mathlib

/-!
Verification development for the `simulador_mtf` backtesting engine.

The Python source is shallowly embedded over exact rationals (`ℚ` stands for
the source's floats; arithmetic identities proved here hold for the real-number
reading of the code).  Mutation of the dataclasses is embedded as explicit
state passing: every function that mutates an `Investor` or an `Operation`
returns the updated record.  A Python function that can raise
`ZeroDivisionError` is embedded as an `Option`-valued function where `none` is
the uncaught exception.

Source files embedded: `fees.py`, `capital.py`, `validations.py`, `models.py`,
`closures.py` (`cerrar_operacion`), `dca.py` (`aplicar_dca`),
`finalization.py` (`finalizar_simulacion`) and the capital-relevant slice of
`simulator_core.py` (`_abrir_operacion`, `SimulatorCore.finalizar`).
-/

namespace SimMtf

/-- `Operation.tipo` / `tipo_senal`: the two-valued direction tag (`models.py`). -/
inductive Tipo where
  | LONG
  | SHORT
deriving DecidableEq, Repr

/-- The `side` argument of `aplicar_slippage` (`fees.py`): the strings
`"entry"` / `"exit"` of the source. -/
inductive Lado where
  | entrada
  | salida
deriving DecidableEq, Repr

/-- `fees.aplicar_slippage` (fees.py lines 5-18). -/
def aplicar_slippage (precio : ℚ) (tipo_operacion : Tipo) (slippage_pct : ℚ)
    (lado : Lado) : ℚ :=
  if slippage_pct ≤ 0 then precio
  else
    let factor := slippage_pct / 100
    match lado, tipo_operacion with
    | Lado.entrada, Tipo.LONG => precio * (1 + factor)
    | Lado.entrada, Tipo.SHORT => precio * (1 - factor)
    | Lado.salida, Tipo.LONG => precio * (1 - factor)
    | Lado.salida, Tipo.SHORT => precio * (1 + factor)

/-- `fees.calcular_comision` (fees.py lines 20-24). -/
def calcular_comision (precio cantidad commission_pct : ℚ) : ℚ :=
  if commission_pct ≤ 0 then 0
  else precio * cantidad * (commission_pct / 100)

/-- `models.StrategyParams` (models.py lines 19-29). -/
structure StrategyParams where
  avance_minimo_pct : ℚ
  porc_limite_retro : ℚ
  porc_retroceso_liquidacion_sl : ℚ
  porc_liquidacion_parcial_sl : ℚ
  porc_limite_retro_entrada : ℚ
  max_parciales : ℕ := 1
  habilitar_proteccion_ganancias : Bool := true
  habilitar_parcial : Bool := true
  habilitar_retroceso_sin_avance : Bool := true
deriving DecidableEq, Repr

/-- `StrategyParams.limite_liq_retroceso_entrada` (models.py lines 43-44). -/
def StrategyParams.limite_liq_retroceso_entrada (sp : StrategyParams) : ℚ :=
  sp.porc_limite_retro_entrada / 100

/-- `StrategyParams.limite_retroceso_max` (models.py lines 46-47). -/
def StrategyParams.limite_retroceso_max (sp : StrategyParams) : ℚ :=
  sp.porc_limite_retro / 100

/-- `models.Investor` (models.py lines 53-72).  The identity field is kept;
`dia_actual` is embedded as `Option ℤ` (Python `None` ↦ `none`). -/
structure Investor where
  id_inversionista : ℤ
  capital_inicial : ℚ
  capital_actual : ℚ
  operaciones_hoy : ℕ := 0
  max_operaciones_diarias : ℕ := 50
  max_operaciones_abiertas : ℕ := 20
  dia_actual : Option ℤ := none
  slippage_open_pct : ℚ := 0
  slippage_close_pct : ℚ := 0
  commission_pct : ℚ := 0
  drawdown_max_pct : ℚ := 0
  drawdown_activo : Bool := false
  pnl_realizado_acumulado : ℚ := 0
  halted : Bool := false
  usar_parametros_senal : Bool := false
  desincronizado : Bool := false
deriving DecidableEq, Repr

/-- `Investor.registrar_pnl_realizado` (models.py lines 79-80). -/
def Investor.registrar_pnl_realizado (inv : Investor) (pnl_net : ℚ) : Investor :=
  { inv with pnl_realizado_acumulado := inv.pnl_realizado_acumulado + pnl_net }

/-- `Investor.verificar_drawdown` (models.py lines 82-87). -/
def Investor.verificar_drawdown (inv : Investor) : Investor :=
  if inv.drawdown_max_pct ≤ 0 then inv
  else
    let limite_perdida := inv.capital_inicial * (inv.drawdown_max_pct / 100)
    if limite_perdida ≤ -inv.pnl_realizado_acumulado then
      { inv with drawdown_activo := true }
    else inv

/-- `models.RiskConfig` (models.py lines 89-93). -/
structure RiskConfig where
  riesgo_max_pct : ℚ
  tamano_min : ℚ
  tamano_max : ℚ
deriving DecidableEq, Repr

/-- `capital.calcular_monto_operacion` (capital.py lines 7-15). -/
def calcular_monto_operacion (inv : Investor) (risk : RiskConfig) : ℚ :=
  let monto := inv.capital_actual * (risk.riesgo_max_pct / 100)
  let monto := if monto < risk.tamano_min then risk.tamano_min else monto
  let monto := if monto > risk.tamano_max then risk.tamano_max else monto
  if monto > inv.capital_actual then inv.capital_actual else monto

/-- `capital.debitar_capital` (capital.py lines 17-20): subtract, clamp at 0. -/
def debitar_capital (inv : Investor) (monto : ℚ) : Investor :=
  let inv := { inv with capital_actual := inv.capital_actual - monto }
  if inv.capital_actual < 0 then { inv with capital_actual := 0 } else inv

/-- `capital.acreditar_capital` (capital.py lines 22-23): add, no clamp. -/
def acreditar_capital (inv : Investor) (monto : ℚ) : Investor :=
  { inv with capital_actual := inv.capital_actual + monto }

/-- `models.Operation` (models.py lines 95-125).  `precio_max`/`precio_min`
carry no `±∞` sentinel here: the simulator calls `init_extremos` on every
operation before the closure cascade can see it (simulator_core.py lines 218
and 233), so the cascade only ever sees finite extremes.
`liq_parcial_previa` is the dynamic attribute read with default `False` at
closures.py line 54. -/
structure Operation where
  id_operacion : Option ℤ
  id_inversionista_fk : ℤ
  id_estrategia_fk : ℤ
  id_senal_fk : ℤ
  ticker : String
  tipo : Tipo
  precio_entrada : ℚ
  take_profit : ℚ
  stop_loss : ℚ
  cantidad : ℚ
  strategy : StrategyParams
  capital_invertido : ℚ
  apalancamiento : ℤ
  capital_bloqueado : ℚ
  abierta : Bool := true
  estado : String := "abierta"
  precio_max : ℚ
  precio_min : ℚ
  parciales_realizados : ℕ := 0
  pnl_realizado : ℚ := 0
  es_hija : Bool := false
  id_operacion_padre : Option ℤ := none
  comisiones_acumuladas : ℚ := 0
  permite_parcial : Bool := true
  timestamp_apertura : Option ℤ := none
  timestamp_cierre : Option ℤ := none
  ultimo_precio_exec_cierre : Option ℚ := none
  id_vela_1m_apertura : Option ℤ := none
  liq_parcial_previa : Bool := false
deriving DecidableEq, Repr

/-- `Operation.init_extremos` (models.py lines 127-129). -/
def Operation.init_extremos (op : Operation) : Operation :=
  { op with precio_max := op.precio_entrada, precio_min := op.precio_entrada }

/-- `Operation.actualizar_extremos` (models.py lines 131-135). -/
def Operation.actualizar_extremos (op : Operation) (high low : ℚ) : Operation :=
  let op := if op.precio_max < high then { op with precio_max := high } else op
  if low < op.precio_min then { op with precio_min := low } else op

/-- `Operation.retroceso_desde_entrada` (models.py lines 153-157); the two
optional arguments default to the stored extremes. -/
def Operation.retroceso_desde_entrada (op : Operation)
    (low high : Option ℚ) : ℚ :=
  match op.tipo with
  | Tipo.LONG => (op.precio_entrada - low.getD op.precio_min) / op.precio_entrada
  | Tipo.SHORT => (high.getD op.precio_max - op.precio_entrada) / op.precio_entrada

/-- `Operation._pnl_gross` (models.py lines 173-176). -/
def Operation.pnl_gross (op : Operation) (precio_salida cantidad : ℚ) : ℚ :=
  match op.tipo with
  | Tipo.LONG => (precio_salida - op.precio_entrada) * cantidad
  | Tipo.SHORT => (op.precio_entrada - precio_salida) * cantidad

/-- `Operation.cerrar_total` (models.py lines 178-190): returns the mutated
operation together with the returned `pnl_net`. -/
def Operation.cerrar_total (op : Operation) (precio_exec comision_salida : ℚ)
    (ts : ℤ) : Operation × ℚ :=
  if op.abierta = false then (op, 0)
  else
    let gross := op.pnl_gross precio_exec op.cantidad
    let pnl_net := gross - comision_salida
    ({ op with
        pnl_realizado := op.pnl_realizado + pnl_net
        comisiones_acumuladas := op.comisiones_acumuladas + comision_salida
        cantidad := 0
        abierta := false
        estado := "cerrada_total"
        timestamp_cierre := some ts
        ultimo_precio_exec_cierre := some precio_exec },
     pnl_net)

/-- The dictionary returned by `Operation.cerrar_parcial_creando_hija`,
extended with the mutated parent (`padre`) since the embedding is functional. -/
structure ParcialRes where
  qty_liq : ℚ
  pnl_parcial_net : ℚ
  capital_liq : ℚ
  hija : Operation
  padre : Operation
deriving DecidableEq, Repr

/-- `Operation.cerrar_parcial_creando_hija` (models.py lines 192-241).
Returns `none` when `qty_liq ≤ 0` (source line 197).  Note the source does
*not* touch the parent's `capital_invertido`. -/
def Operation.cerrar_parcial_creando_hija (op : Operation)
    (precio_exec comision_salida_parcial : ℚ) (ts : ℤ) : Option ParcialRes :=
  let porc_liq := op.strategy.porc_liquidacion_parcial_sl / 100
  let qty_before := op.cantidad
  let qty_liq := qty_before * porc_liq
  if qty_liq ≤ 0 then none
  else
    let gross := op.pnl_gross precio_exec qty_liq
    let pnl_parcial_net := gross - comision_salida_parcial
    let proporcion_liq := qty_liq / qty_before
    let capital_liq := op.capital_invertido * proporcion_liq
    let capital_rem := op.capital_invertido - capital_liq
    let padre := { op with
        comisiones_acumuladas := op.comisiones_acumuladas + comision_salida_parcial
        pnl_realizado := op.pnl_realizado + pnl_parcial_net
        cantidad := 0
        abierta := false
        estado := "cerrada_parcial"
        parciales_realizados := op.parciales_realizados + 1
        timestamp_cierre := some ts
        ultimo_precio_exec_cierre := some precio_exec }
    let hija : Operation := {
        id_operacion := none
        id_inversionista_fk := op.id_inversionista_fk
        id_estrategia_fk := op.id_estrategia_fk
        id_senal_fk := op.id_senal_fk
        ticker := op.ticker
        tipo := op.tipo
        precio_entrada := op.precio_entrada
        take_profit := op.take_profit
        stop_loss := op.stop_loss
        cantidad := qty_before - qty_liq
        strategy := op.strategy
        capital_invertido := capital_rem
        apalancamiento := op.apalancamiento
        capital_bloqueado := capital_rem
        es_hija := true
        id_operacion_padre := op.id_operacion
        permite_parcial := false
        timestamp_apertura := some ts
        id_vela_1m_apertura := op.id_vela_1m_apertura
        -- `hija.init_extremos()` followed by the explicit copy of the parent's
        -- extremes (models.py lines 233-235) nets to the parent's extremes:
        precio_max := op.precio_max
        precio_min := op.precio_min }
    some { qty_liq := qty_liq, pnl_parcial_net := pnl_parcial_net,
           capital_liq := capital_liq, hija := hija, padre := padre }

/-- `Operation.pnl_no_realizado` (models.py lines 243-246). -/
def Operation.pnl_no_realizado (op : Operation) (precio_actual : ℚ) : ℚ :=
  if op.abierta = false ∨ op.cantidad ≤ 0 then 0
  else op.pnl_gross precio_actual op.cantidad

/-! ## The closure cascade (`closures.cerrar_operacion`)

`cerrar_operacion` mutates `op` and `inv` and appends at most one event to
`eventos`; the embedding returns the mutated pair together with the list of
appended events.  The five source blocks b1-b5 are chained as separate
definitions because Python's early `return` inside block b2 falls through to
b3 when `cerrar_parcial_creando_hija` yields `None` (closures.py line 74). -/

/-- One dictionary appended to `eventos` by `cerrar_operacion`.  The fields
`cantidad`/`hija` are only present on the partial-closure event. -/
structure Event where
  tipo_evento : String
  motivo : String
  precio_exec : ℚ
  comision : ℚ
  pnl_net : ℚ
  cantidad : Option ℚ := none
  hija : Option Operation := none
deriving DecidableEq, Repr

/-- The state returned by the embedded `cerrar_operacion`: the (possibly
mutated) operation and investor plus the appended events. -/
structure CierreResult where
  op : Operation
  inv : Investor
  eventos : List Event
deriving DecidableEq, Repr

/-- `es_hija` detection at closures.py line 31: the parent id exists and is
neither `None` nor `0`. -/
def esHijaCierre (op : Operation) : Prop :=
  match op.id_operacion_padre with
  | none => False
  | some p => p ≠ 0

instance (op : Operation) : Decidable (esHijaCierre op) := by
  unfold esHijaCierre
  cases op.id_operacion_padre <;> infer_instance

/-- Shared body of the four total-closure blocks b1/b3/b4/b5: execute
`cerrar_total`, credit `capital_invertido + pnl_net`, register the realized
P&L, optionally run `verificar_drawdown` (only b1 and b3 do), and emit the
`cierre_total` event. -/
def cierreTotalPaso (op : Operation) (inv : Investor) (ts : ℤ)
    (precio_objetivo : ℚ) (motivo : String) (conDrawdown : Bool) : CierreResult :=
  let precio_exec := aplicar_slippage precio_objetivo op.tipo inv.slippage_close_pct Lado.salida
  let comision := calcular_comision precio_exec op.cantidad inv.commission_pct
  let cerrado := op.cerrar_total precio_exec comision ts
  let pnl_net := cerrado.2
  let inv := acreditar_capital inv (op.capital_invertido + pnl_net)
  let inv := inv.registrar_pnl_realizado pnl_net
  let inv := if conDrawdown then inv.verificar_drawdown else inv
  { op := cerrado.1, inv := inv,
    eventos := [{ tipo_evento := "cierre_total", motivo := motivo,
                  precio_exec := precio_exec, comision := comision,
                  pnl_net := pnl_net }] }

/-- Block b5 of `cerrar_operacion` (closures.py lines 193-234): total closure
on a retracement from the reached extreme after the minimum advance.  Note the
SHORT branch compares `high` against the *fraction*
`limite_retroceso_max()` itself (line 218), unlike the LONG branch. -/
def cerrarOperacionB5 (op : Operation) (high low _close : ℚ) (inv : Investor)
    (ts : ℤ) : CierreResult :=
  let entrada := op.precio_entrada
  let tp := op.take_profit
  match op.tipo with
  | Tipo.LONG =>
    let avance_minimo := (tp - entrada) * op.strategy.avance_minimo_pct / 100
    let limite_retroceso_precio :=
      op.precio_max - (op.precio_max - entrada) * op.strategy.limite_retroceso_max
    if entrada < high ∧ entrada + avance_minimo ≤ op.precio_max ∧
        low < op.precio_max ∧ low ≤ limite_retroceso_precio then
      cierreTotalPaso op inv ts low "Retroceso desde máximo" false
    else { op := op, inv := inv, eventos := [] }
  | Tipo.SHORT =>
    let avance_minimo := (entrada - tp) * op.strategy.avance_minimo_pct / 100
    if low < entrada ∧ op.precio_min ≤ entrada - avance_minimo ∧
        op.precio_min < high ∧ op.strategy.limite_retroceso_max ≤ high then
      cierreTotalPaso op inv ts high "Retroceso desde máximo" false
    else { op := op, inv := inv, eventos := [] }

/-- Block b4 of `cerrar_operacion` (closures.py lines 153-191): total closure
on a retracement from entry without any advance.  The last conjunct compares
the bar price against the *fraction* `limite_liq_retroceso_entrada()`
(lines 156 and 175). -/
def cerrarOperacionB4 (op : Operation) (high low close : ℚ) (inv : Investor)
    (ts : ℤ) : CierreResult :=
  let entrada := op.precio_entrada
  let sl := op.stop_loss
  match op.tipo with
  | Tipo.LONG =>
    if low < entrada ∧ op.precio_max ≤ entrada ∧ sl < low ∧
        low ≤ op.strategy.limite_liq_retroceso_entrada then
      cierreTotalPaso op inv ts low "Retroceso desde entrada" false
    else cerrarOperacionB5 op high low close inv ts
  | Tipo.SHORT =>
    if entrada < high ∧ entrada ≤ op.precio_min ∧ high < sl ∧
        op.strategy.limite_liq_retroceso_entrada ≤ high then
      cierreTotalPaso op inv ts high "Retroceso desde entrada" false
    else cerrarOperacionB5 op high low close inv ts

/-- Block b3 of `cerrar_operacion` (closures.py lines 133-151): total closure
by stop loss, with the drawdown check. -/
def cerrarOperacionB3 (op : Operation) (high low close : ℚ) (inv : Investor)
    (ts : ℤ) : CierreResult :=
  if (op.tipo = Tipo.LONG ∧ low ≤ op.stop_loss) ∨
      (op.tipo = Tipo.SHORT ∧ op.stop_loss ≤ high) then
    cierreTotalPaso op inv ts op.stop_loss "Stop Loss" true
  else cerrarOperacionB4 op high low close inv ts

/-- The partial-closure settlement shared by the LONG and SHORT arms of block
b2 (closures.py lines 70-94 and 107-131): on a created child, credit the
share-weighted amount
`(op.capital_invertido / (op.capital_invertido + hija.capital_invertido)) *
qty_liq + pnl_net` (lines 79 and 116 — `op.capital_invertido` is untouched by
`cerrar_parcial_creando_hija`), register the P&L (no drawdown check), mark
`liq_parcial_previa`, and emit the `cierre_parcial` event; when no child was
created fall through to block b3. -/
def cierreParcialPaso (op : Operation) (high low close : ℚ) (inv : Investor)
    (ts : ℤ) (precio_objetivo : ℚ) : CierreResult :=
  let precio_exec := aplicar_slippage precio_objetivo op.tipo inv.slippage_close_pct Lado.salida
  let comision := calcular_comision precio_exec
    (op.cantidad * op.strategy.porc_liquidacion_parcial_sl / 100) inv.commission_pct
  match op.cerrar_parcial_creando_hija precio_exec comision ts with
  | some cerrado =>
    let pnl_net := cerrado.pnl_parcial_net
    let cantidad_parcial := cerrado.qty_liq
    let hija := cerrado.hija
    let inv := acreditar_capital inv
      ((op.capital_invertido / (op.capital_invertido + hija.capital_invertido))
        * cantidad_parcial + pnl_net)
    let inv := inv.registrar_pnl_realizado pnl_net
    { op := { cerrado.padre with liq_parcial_previa := true }, inv := inv,
      eventos := [{ tipo_evento := "cierre_parcial", motivo := "Parcial SL",
                    precio_exec := precio_exec, comision := comision,
                    pnl_net := pnl_net, cantidad := some cantidad_parcial,
                    hija := some hija }] }
  | none => cerrarOperacionB3 op high low close inv ts

/-- Block b2 of `cerrar_operacion` (closures.py lines 53-131): partial
liquidation by SL, only for a non-child operation with `permite_parcial` and
no previous partial. -/
def cerrarOperacionB2 (op : Operation) (high low close : ℚ) (inv : Investor)
    (ts : ℤ) : CierreResult :=
  let entrada := op.precio_entrada
  let tp := op.take_profit
  let sl := op.stop_loss
  if ¬ esHijaCierre op ∧ op.permite_parcial = true ∧ op.liq_parcial_previa = false then
    let avance_minimo := (tp - entrada) * op.strategy.avance_minimo_pct / 100
    let porc_retroceso := op.strategy.porc_retroceso_liquidacion_sl
    match op.tipo with
    | Tipo.LONG =>
      let limite_parcial := entrada - (entrada - sl) * porc_retroceso / 100
      if entrada < op.precio_max ∧ op.precio_max < entrada + avance_minimo ∧
          low < entrada ∧ low ≤ limite_parcial then
        cierreParcialPaso op high low close inv ts low
      else cerrarOperacionB3 op high low close inv ts
    | Tipo.SHORT =>
      let limite_parcial := entrada + (sl - entrada) * porc_retroceso / 100
      if op.precio_min < entrada ∧ entrada - avance_minimo < op.precio_min ∧
          entrada < high ∧ limite_parcial ≤ high then
        cierreParcialPaso op high low close inv ts high
      else cerrarOperacionB3 op high low close inv ts
  else cerrarOperacionB3 op high low close inv ts

/-- `closures.cerrar_operacion` (closures.py lines 17-237): the whole cascade,
starting with block b1 (take profit, with the drawdown check). -/
def cerrar_operacion (op : Operation) (high low close : ℚ) (inv : Investor)
    (ts : ℤ) : CierreResult :=
  if (op.tipo = Tipo.LONG ∧ op.take_profit ≤ high) ∨
      (op.tipo = Tipo.SHORT ∧ low ≤ op.take_profit) then
    cierreTotalPaso op inv ts op.take_profit "Take Profit" true
  else cerrarOperacionB2 op high low close inv ts

/-! ## Validations (`validations.py`) -/

/-- `validar_limites_inversionista` (validations.py lines 7-10); Python's
truthiness of `max_operaciones_diarias` is `≠ 0`. -/
def validar_limites_inversionista (inv : Investor) : Bool :=
  if inv.max_operaciones_diarias ≠ 0 ∧
      inv.max_operaciones_diarias ≤ inv.operaciones_hoy then false else true

/-- `validar_max_abiertas` (validations.py lines 12-15). -/
def validar_max_abiertas (inv : Investor) (abiertas_actuales : ℕ) : Bool :=
  if inv.max_operaciones_abiertas ≠ 0 ∧
      inv.max_operaciones_abiertas ≤ abiertas_actuales then false else true

/-- `validar_riesgo_monto` (validations.py lines 17-22). -/
def validar_riesgo_monto (risk : RiskConfig) (monto : ℚ) : Bool :=
  if monto < risk.tamano_min then false
  else if risk.tamano_max < monto then false
  else true

/-- `validar_capital_disponible` (validations.py lines 24-25). -/
def validar_capital_disponible (inv : Investor) (requerido : ℚ) : Bool :=
  decide (requerido ≤ inv.capital_actual)

/-- `validar_dca_limite_operacion` (validations.py lines 27-28). -/
def validar_dca_limite_operacion (op : Operation) (risk : RiskConfig)
    (monto : ℚ) : Bool :=
  decide (op.capital_invertido + monto ≤ risk.tamano_max)

/-! ## DCA (`dca.py`)

`aplicar_dca` returns a rejection dict, or mutates `op` and `inv` and returns
a `dca` event dict; the two unguarded float divisions (lines 15 and 22) raise
`ZeroDivisionError` in Python, embedded as the `none` result. -/

/-- The `dca` event dictionary returned on success (dca.py lines 29-38). -/
structure DcaEvento where
  precio_exec : ℚ
  precio_base : ℚ
  monto_margen : ℚ
  qty_add : ℚ
  nuevo_prom : ℚ
  apalancamiento : ℤ
  comision : ℚ
deriving DecidableEq, Repr

/-- The value produced by `aplicar_dca`: a rejection motive, or the success
event. -/
inductive DcaSalida where
  | rechazo_dca (motivo : String)
  | exito (ev : DcaEvento)
deriving DecidableEq, Repr

/-- `aplicar_dca`'s effect on the mutable arguments plus its return value. -/
structure DcaRes where
  op : Operation
  inv : Investor
  salida : DcaSalida
deriving DecidableEq, Repr

/-- `dca.aplicar_dca` (dca.py lines 10-38).  `none` models the uncaught
`ZeroDivisionError` of line 15 (`precio_exec == 0`) or line 22
(`op.cantidad + qty_extra == 0`); on a rejection the operation and the
investor are returned unchanged, exactly as in the source, whose mutation
statements (lines 23-28) all come after the last rejection return. -/
def aplicar_dca (op : Operation) (precio_base monto : ℚ) (inv : Investor)
    (risk : RiskConfig) : Option DcaRes :=
  if validar_dca_limite_operacion op risk monto = false then
    some { op := op, inv := inv, salida := DcaSalida.rechazo_dca "limite_tamano_operacion" }
  else
    let precio_exec := aplicar_slippage precio_base op.tipo inv.slippage_open_pct Lado.entrada
    if precio_exec = 0 then none
    else
      let qty_extra := monto * op.apalancamiento / precio_exec
      if inv.capital_actual < monto then
        some { op := op, inv := inv, salida := DcaSalida.rechazo_dca "sin_capital" }
      else
        let comision := calcular_comision precio_exec qty_extra inv.commission_pct
        let total_debitar := monto + comision
        if inv.capital_actual < total_debitar then
          some { op := op, inv := inv, salida := DcaSalida.rechazo_dca "sin_capital_comision" }
        else if op.cantidad + qty_extra = 0 then none
        else
          let nuevo_prom := (op.precio_entrada * op.cantidad + precio_exec * qty_extra)
            / (op.cantidad + qty_extra)
          let op := { op with
              precio_entrada := nuevo_prom
              cantidad := op.cantidad + qty_extra
              capital_invertido := op.capital_invertido + monto
              capital_bloqueado := op.capital_bloqueado + monto
              comisiones_acumuladas := op.comisiones_acumuladas + comision }
          some { op := op, inv := debitar_capital inv total_debitar,
                 salida := DcaSalida.exito
                   { precio_exec := precio_exec, precio_base := precio_base,
                     monto_margen := monto, qty_add := qty_extra,
                     nuevo_prom := nuevo_prom, apalancamiento := op.apalancamiento,
                     comision := comision } }

/-! ## The open path (`SimulatorCore._abrir_operacion`)

Embedded for its state effect on the investor and the constructed operation
(simulator_core.py lines 135-253).  Persistence and logging are outside the
state model; every rejection branch and the persistence-failure branch leave
the investor unchanged and create no operation, so they are all embedded as
`none`. -/

/-- The signal fields `_abrir_operacion` reads, after `data_access.py`'s
numeric coercion (`SignalRecord`). -/
structure SignalDatos where
  id_senal : ℤ
  id_estrategia_fk : ℤ
  ticker_fk : String
  tipo_senal : Tipo
  target_profit_price : ℚ
  stop_loss_price : ℚ
  precio_senal : ℚ
deriving DecidableEq, Repr

/-- The `1e-12` floor of simulator_core.py line 176. -/
def epsApertura : ℚ := 1 / 10 ^ 12

/-- The quantity computation of the open path (simulator_core.py line 176):
the denominator is floored at `1e-12`, unlike the DCA path. -/
def cantidadApertura (monto : ℚ) (apalancamiento : ℤ) (precio_exec : ℚ) : ℚ :=
  monto * apalancamiento / max precio_exec epsApertura

/-- `SimulatorCore._abrir_operacion` (simulator_core.py lines 135-253), with
the leverage already selected and the open-operation count passed in.
`precio_close` and `id_vela` are the bar's close and id.  Returns the updated
investor, the registered operation and the opening commission. -/
def abrir_operacion (inv : Investor) (risk : RiskConfig) (s : SignalDatos)
    (sp : StrategyParams) (apalancamiento : ℤ) (abiertas : ℕ)
    (precio_close : ℚ) (id_vela : Option ℤ) (ts : ℤ) :
    Option (Investor × Operation × ℚ) :=
  if inv.drawdown_activo = true ∨ inv.halted = true then none
  else if validar_limites_inversionista inv = false then none
  else if validar_max_abiertas inv abiertas = false then none
  else if apalancamiento = 0 then none
  else
    let monto := calcular_monto_operacion inv risk
    if validar_riesgo_monto risk monto = false then none
    else
      let precio_exec := precio_close
      let cantidad := cantidadApertura monto apalancamiento precio_exec
      let comision := calcular_comision precio_exec cantidad inv.commission_pct
      let total_debitar := monto + comision
      if validar_capital_disponible inv total_debitar = false then none
      else
        let op : Operation := {
            id_operacion := none
            id_inversionista_fk := inv.id_inversionista
            id_estrategia_fk := s.id_estrategia_fk
            id_senal_fk := s.id_senal
            ticker := s.ticker_fk
            tipo := s.tipo_senal
            precio_entrada := precio_exec
            take_profit := s.target_profit_price
            stop_loss := s.stop_loss_price
            cantidad := cantidad
            strategy := sp
            capital_invertido := monto
            apalancamiento := apalancamiento
            capital_bloqueado := monto
            comisiones_acumuladas := comision
            timestamp_apertura := some ts
            id_vela_1m_apertura := id_vela
            -- `op.init_extremos()` at simulator_core.py line 218:
            precio_max := precio_exec
            precio_min := precio_exec }
        let inv := debitar_capital inv total_debitar
        let inv := { inv with operaciones_hoy := inv.operaciones_hoy + 1 }
        some (inv, op, comision)

/-! ## Finalization (`finalization.py`, `SimulatorCore.finalizar`) -/

/-- One entry of the event journal written during finalization: the event
type together with the P&L figure it carries. -/
structure FinEvento where
  tipo_evento : String
  valor : ℚ
deriving DecidableEq, Repr

/-- `finalization.finalizar_simulacion` (finalization.py lines 9-25): walk the
operations, total the unrealized P&L of the open ones whose ticker has a
truthy close price (`if price:` is false for a missing *and* for a zero
price), logging one `pnl_no_realizado` event each. -/
def finalizar_simulacion (operaciones : List Operation)
    (precios_close : String → Option ℚ) : ℚ × List FinEvento :=
  operaciones.foldl
    (fun (acc : ℚ × List FinEvento) op =>
      if op.abierta = true ∧ (0 : ℚ) < op.cantidad then
        match precios_close op.ticker with
        | some price =>
          if price ≠ 0 then
            let nr := op.pnl_no_realizado price
            (acc.1 + nr, acc.2 ++ [{ tipo_evento := "pnl_no_realizado", valor := nr }])
          else acc
        | none => acc
      else acc)
    (0, [])

/-- `SimulatorCore.finalizar` (simulator_core.py lines 455-476): skipped
entirely when `desincronizado`; when not `halted` it runs
`finalizar_simulacion` and then logs the `finalizacion_inversionista` summary
event; otherwise it returns `None` having logged nothing.  The persistence
writes carry no state in this model. -/
def SimulatorCore.finalizar (inv : Investor) (operaciones : List Operation)
    (precios_close_final : String → Option ℚ) : Option ℚ × List FinEvento :=
  if inv.desincronizado = true then (none, [])
  else if inv.halted = false then
    let res := finalizar_simulacion operaciones precios_close_final
    (some res.1, res.2 ++ [{ tipo_evento := "finalizacion_inversionista", valor := res.1 }])
  else (none, [])

/-- `data_access._to_float` (data_access.py lines 25-28): the numeric coercion
applied to signal and price fields, mapping SQL `NULL` to `0.0`. -/
def to_float (x : Option ℚ) : ℚ :=
  match x with
  | none => 0
  | some v => v

/-- The entry-slippage execution price of the DCA path (dca.py line 14). -/
def dcaPrecioExec (op : Operation) (precio_base : ℚ) (inv : Investor) : ℚ :=
  aplicar_slippage precio_base op.tipo inv.slippage_open_pct Lado.entrada

/-- The added quantity of the DCA path (dca.py line 15). -/
def dcaQtyExtra (op : Operation) (precio_base monto : ℚ) (inv : Investor) : ℚ :=
  monto * op.apalancamiento / dcaPrecioExec op precio_base inv

/-- The DCA commission (dca.py line 18): computed on the entry-slippage exec
price and the added quantity. -/
def dcaComision (op : Operation) (precio_base monto : ℚ) (inv : Investor) : ℚ :=
  calcular_comision (dcaPrecioExec op precio_base inv) (dcaQtyExtra op precio_base monto inv)
    inv.commission_pct

/-! ## The capital-conservation ledger

The spec's conserved quantity, read on the code's accounting: the investor's
net realized P&L accumulator is net of *exit* commissions (every
`registrar_pnl_realizado` argument is `gross - exit commission`), so the
commission column of the ledger holds the commissions paid out of capital at
open/DCA time. -/

/-- Capital conservation: current capital plus the margin locked in open
operations equals the initial capital plus accumulated net realized P&L minus
the entry/DCA commissions paid. -/
def conserva (inv : Investor) (invertido_abierto comisiones_entrada : ℚ) : Prop :=
  inv.capital_actual + invertido_abierto =
    inv.capital_inicial + inv.pnl_realizado_acumulado - comisiones_entrada

instance (inv : Investor) (i c : ℚ) : Decidable (conserva inv i c) := by
  unfold conserva; infer_instance

/-- The three possible outcomes of one `cerrar_operacion` evaluation, with
the capital effect of each: no event (state untouched), one total closure
(credit `capital_invertido + pnl_net`, register the P&L), or one partial
closure (credit the share-weighted quantity expression of closures.py lines
79/116, register the P&L, spawn the child). -/
def CascadeShape (op : Operation) (inv : Investor) (r : CierreResult) : Prop :=
  (r = { op := op, inv := inv, eventos := [] }) ∨
  (∃ ev, r.eventos = [ev] ∧ ev.tipo_evento = "cierre_total" ∧
    r.inv.capital_actual = inv.capital_actual + op.capital_invertido + ev.pnl_net ∧
    r.inv.pnl_realizado_acumulado = inv.pnl_realizado_acumulado + ev.pnl_net ∧
    r.inv.capital_inicial = inv.capital_inicial ∧
    r.op.abierta = false ∧ r.op.capital_invertido = op.capital_invertido) ∨
  (∃ ev hija qty, r.eventos = [ev] ∧ ev.tipo_evento = "cierre_parcial" ∧
    ev.hija = some hija ∧ ev.cantidad = some qty ∧
    r.inv.capital_actual = inv.capital_actual +
      ((op.capital_invertido / (op.capital_invertido + hija.capital_invertido)) * qty
        + ev.pnl_net) ∧
    r.inv.pnl_realizado_acumulado = inv.pnl_realizado_acumulado + ev.pnl_net ∧
    r.inv.capital_inicial = inv.capital_inicial ∧
    r.op.abierta = false ∧ hija.abierta = true ∧
    hija.capital_invertido =
      op.capital_invertido - op.capital_invertido * (qty / op.cantidad) ∧
    0 < qty ∧ qty = op.cantidad * (op.strategy.porc_liquidacion_parcial_sl / 100))

/-! ## Concrete fixtures used by witnesses and counterexamples -/

/-- Strategy fixture: partial liquidation at 50% of the quantity once the bar
retraces 50% of the entry→SL distance, minimum advance 10%, entry-retracement
percent 20. -/
def spW : StrategyParams :=
  { avance_minimo_pct := 10, porc_limite_retro := 50,
    porc_retroceso_liquidacion_sl := 50, porc_liquidacion_parcial_sl := 50,
    porc_limite_retro_entrada := 20 }

/-- Investor fixture: initial capital 1000, current 800 (200 is margin of the
open operation fixture), no slippage/commission. -/
def invW : Investor :=
  { id_inversionista := 1, capital_inicial := 1000, capital_actual := 800 }

/-- Operation fixture: an open LONG at 100 with TP 200 / SL 50, quantity 2,
margin 200, extremes at 105/95. -/
def opW : Operation :=
  { id_operacion := some 7, id_inversionista_fk := 1, id_estrategia_fk := 1,
    id_senal_fk := 1, ticker := "BTC", tipo := Tipo.LONG,
    precio_entrada := 100, take_profit := 200, stop_loss := 50,
    cantidad := 2, strategy := spW, capital_invertido := 200,
    apalancamiento := 1, capital_bloqueado := 200,
    precio_max := 105, precio_min := 95 }

/-- Risk fixture for DCA/open witnesses. -/
def riskW : RiskConfig := { riesgo_max_pct := 2, tamano_min := 2, tamano_max := 500 }

/-- The child spawned by the partial closure of `opW` on the bar
`(high 105, low 60, close 60)`: half the quantity and half the margin. -/
def hijaW : Operation :=
  { opW with id_operacion := none, cantidad := 1, capital_invertido := 100,
             capital_bloqueado := 100, es_hija := true, id_operacion_padre := some 7,
             permite_parcial := false, timestamp_apertura := some 5 }

/-- The `cierre_parcial` event emitted for that closure. -/
def evW : Event :=
  { tipo_evento := "cierre_parcial", motivo := "Parcial SL", precio_exec := 60,
    comision := 0, pnl_net := -40, cantidad := some 1, hija := some hijaW }

/-! ## Helper lemmas -/

theorem verificar_drawdown_capital_actual (inv : Investor) :
    inv.verificar_drawdown.capital_actual = inv.capital_actual := by
  unfold Investor.verificar_drawdown
  split
  · rfl
  · dsimp only
    split <;> rfl

theorem verificar_drawdown_pnl (inv : Investor) :
    inv.verificar_drawdown.pnl_realizado_acumulado = inv.pnl_realizado_acumulado := by
  unfold Investor.verificar_drawdown
  split
  · rfl
  · dsimp only
    split <;> rfl

theorem verificar_drawdown_inicial (inv : Investor) :
    inv.verificar_drawdown.capital_inicial = inv.capital_inicial := by
  unfold Investor.verificar_drawdown
  split
  · rfl
  · dsimp only
    split <;> rfl

theorem aplicar_slippage_zero (t : Tipo) (pct : ℚ) (l : Lado) :
    aplicar_slippage 0 t pct l = 0 := by
  unfold aplicar_slippage
  split
  · rfl
  · cases l <;> cases t <;> simp

theorem tipo_long_eq_short (h : Tipo.LONG = Tipo.SHORT) : False := by simp at h

theorem tipo_long_short_false : (Tipo.LONG = Tipo.SHORT) = False := by simp

theorem tipo_short_long_false : (Tipo.SHORT = Tipo.LONG) = False := by simp

/-! ## Claim theorems -/

/-- C3 — Take-profit precedence: on any bar where both the take-profit
trigger (LONG `high ≥ TP`, SHORT `low ≤ TP`) and the total stop-loss trigger
(LONG `low ≤ SL`, SHORT `high ≥ SL`) hold, `cerrar_operacion` emits exactly
one event: a total closure with motive `Take Profit` at exit price
`aplicar_slippage(TP, side, close_slippage, exit)`. -/
theorem c3_tp_precedence (op : Operation) (high low close : ℚ) (inv : Investor)
    (ts : ℤ)
    (hlong : op.tipo = Tipo.LONG → op.take_profit ≤ high ∧ low ≤ op.stop_loss)
    (hshort : op.tipo = Tipo.SHORT → low ≤ op.take_profit ∧ op.stop_loss ≤ high) :
    (cerrar_operacion op high low close inv ts).eventos =
      [{ tipo_evento := "cierre_total", motivo := "Take Profit",
         precio_exec := aplicar_slippage op.take_profit op.tipo
           inv.slippage_close_pct Lado.salida,
         comision := calcular_comision
           (aplicar_slippage op.take_profit op.tipo inv.slippage_close_pct Lado.salida)
           op.cantidad inv.commission_pct,
         pnl_net := (op.cerrar_total
           (aplicar_slippage op.take_profit op.tipo inv.slippage_close_pct Lado.salida)
           (calcular_comision
             (aplicar_slippage op.take_profit op.tipo inv.slippage_close_pct Lado.salida)
             op.cantidad inv.commission_pct) ts).2 }] := by
  have hcond : (op.tipo = Tipo.LONG ∧ op.take_profit ≤ high) ∨
      (op.tipo = Tipo.SHORT ∧ low ≤ op.take_profit) := by
    cases h : op.tipo
    · exact Or.inl ⟨rfl, (hlong h).1⟩
    · exact Or.inr ⟨rfl, (hshort h).1⟩
  unfold cerrar_operacion
  rw [if_pos hcond]
  rfl

theorem c3_tp_precedence_witness :
    (cerrar_operacion opW 250 40 60 invW 5).eventos =
      [{ tipo_evento := "cierre_total", motivo := "Take Profit",
         precio_exec := 200, comision := 0, pnl_net := 200 }] := by
  have h := c3_tp_precedence opW 250 40 60 invW 5
    (fun _ => by norm_num [opW]) (fun hs => by simp [opW] at hs)
  rw [h]
  norm_num [opW, invW, aplicar_slippage, calcular_comision,
    Operation.cerrar_total, Operation.pnl_gross]

/-- C6 (counterexample) — the non-negative capital invariant fails: a total
stop-loss closure of a leveraged operation (quantity 10 on margin 100) credits
`capital_invertido + pnl_net = 100 + (-900)`, driving the investor's capital
from 500 to -300 < 0. -/
theorem c6_counterexample :
    ((cerrar_operacion
        { opW with permite_parcial := false, cantidad := 10,
                   capital_invertido := 100, capital_bloqueado := 100,
                   stop_loss := 10, take_profit := 1000 }
        20 10 15 { invW with capital_actual := 500 } 5).eventos.map
          (fun e => e.motivo) = ["Stop Loss"]) ∧
    (cerrar_operacion
        { opW with permite_parcial := false, cantidad := 10,
                   capital_invertido := 100, capital_bloqueado := 100,
                   stop_loss := 10, take_profit := 1000 }
        20 10 15 { invW with capital_actual := 500 } 5).inv.capital_actual < 0 := by
  norm_num [cerrar_operacion, cerrarOperacionB2, cerrarOperacionB3, cierreTotalPaso,
    aplicar_slippage, calcular_comision, Operation.cerrar_total, Operation.pnl_gross,
    acreditar_capital, Investor.registrar_pnl_realizado, Investor.verificar_drawdown,
    tipo_long_short_false, tipo_short_long_false, opW, invW, spW]

/-- C6 (amended) — non-negativity is guaranteed by the debit side only:
`debitar_capital` clamps at 0, so every debit leaves `capital_actual ≥ 0`;
the total-closure credit `capital_invertido + pnl_net` can be negative under
leverage and is not clamped. -/
theorem c6_amended (inv : Investor) (monto : ℚ) :
    0 ≤ (debitar_capital inv monto).capital_actual := by
  unfold debitar_capital
  by_cases h : inv.capital_actual - monto < 0
  · simp [h]
  · simp only [h, if_neg, ite_false]
    exact not_lt.mp h

/-- C9 (counterexample) — `SimulatorCore.finalizar` on a halted but not
desynchronized investor (the state after a drawdown trip) returns `None` and
logs nothing: neither the per-operation `pnl_no_realizado` events nor the
`finalizacion_inversionista` summary, even though an operation is still open
and its ticker has a close price. -/
theorem c9_counterexample :
    ({ invW with halted := true }).halted = true ∧
    ({ invW with halted := true }).desincronizado = false ∧
    opW.abierta = true ∧
    SimulatorCore.finalizar { invW with halted := true } [opW]
      (fun _ => some 120) = (none, []) := by
  refine ⟨rfl, rfl, rfl, ?_⟩
  rfl

/-- C9 (amended) — when the investor is halted, `SimulatorCore.finalizar`
skips the walk over open operations and logs no event, whether or not the
investor is desynchronized; the summary is only produced when
`halted = false ∧ desincronizado = false`. -/
theorem c9_amended (inv : Investor) (operaciones : List Operation)
    (precios : String → Option ℚ)
    (hh : inv.halted = true) :
    SimulatorCore.finalizar inv operaciones precios = (none, []) := by
  unfold SimulatorCore.finalizar
  rw [hh]
  split <;> simp

theorem c9_amended_witness :
    SimulatorCore.finalizar { invW with halted := true } [opW]
      (fun _ => some 250) = (none, []) :=
  c9_amended { invW with halted := true } [opW] (fun _ => some 250) rfl

/-- C10 — totality of the DCA quantity computation: `aplicar_dca` divides by
the slippage-adjusted base price with no zero guard, so with a base price of
`0.0` (the `_to_float` default for a missing numeric field) the division by
zero is reached whenever the size-cap validation passes; the open path instead
computes its quantity with the denominator floored at `1e-12`, which is always
positive. -/
theorem c10_dca_division_sin_guarda :
    (∀ (op : Operation) (monto : ℚ) (inv : Investor) (risk : RiskConfig),
      op.capital_invertido + monto ≤ risk.tamano_max →
      aplicar_dca op 0 monto inv risk = none) ∧
    to_float none = 0 ∧
    (∀ precio_exec : ℚ, 0 < max precio_exec epsApertura) ∧
    (∀ (monto : ℚ) (apalancamiento : ℤ) (precio_exec : ℚ),
      cantidadApertura monto apalancamiento precio_exec =
        monto * apalancamiento / max precio_exec epsApertura) := by
  refine ⟨?_, rfl, ?_, fun _ _ _ => rfl⟩
  · intro op monto inv risk hmax
    unfold aplicar_dca
    rw [if_neg, aplicar_slippage_zero, if_pos rfl]
    simp [validar_dca_limite_operacion, hmax]
  · intro precio_exec
    have : (0 : ℚ) < epsApertura := by norm_num [epsApertura]
    exact lt_max_of_lt_right this

theorem c10_dca_division_sin_guarda_witness :
    aplicar_dca opW 0 100 invW riskW = none :=
  c10_dca_division_sin_guarda.1 opW 100 invW riskW (by norm_num [opW, riskW])

theorem validar_dca_false_iff (op : Operation) (risk : RiskConfig) (monto : ℚ) :
    validar_dca_limite_operacion op risk monto = false ↔
      risk.tamano_max < op.capital_invertido + monto := by
  simp [validar_dca_limite_operacion, not_le]

theorem validar_dca_true_iff (op : Operation) (risk : RiskConfig) (monto : ℚ) :
    validar_dca_limite_operacion op risk monto = true ↔
      op.capital_invertido + monto ≤ risk.tamano_max := by
  simp [validar_dca_limite_operacion]

/-- Case-split form of `aplicar_dca`: the definition with its `let`s expanded
and the size-cap condition put in arithmetic form. -/
theorem aplicar_dca_cases (op : Operation) (precio_base monto : ℚ) (inv : Investor)
    (risk : RiskConfig) :
    aplicar_dca op precio_base monto inv risk =
      (if risk.tamano_max < op.capital_invertido + monto then
        some { op := op, inv := inv, salida := DcaSalida.rechazo_dca "limite_tamano_operacion" }
      else if dcaPrecioExec op precio_base inv = 0 then none
      else if inv.capital_actual < monto then
        some { op := op, inv := inv, salida := DcaSalida.rechazo_dca "sin_capital" }
      else if inv.capital_actual < monto + dcaComision op precio_base monto inv then
        some { op := op, inv := inv, salida := DcaSalida.rechazo_dca "sin_capital_comision" }
      else if op.cantidad + dcaQtyExtra op precio_base monto inv = 0 then none
      else some { op :=
                    { op with
                      precio_entrada := (op.precio_entrada * op.cantidad +
                          dcaPrecioExec op precio_base inv * dcaQtyExtra op precio_base monto inv) /
                        (op.cantidad + dcaQtyExtra op precio_base monto inv),
                      cantidad := op.cantidad + dcaQtyExtra op precio_base monto inv,
                      capital_invertido := op.capital_invertido + monto,
                      capital_bloqueado := op.capital_bloqueado + monto,
                      comisiones_acumuladas := op.comisiones_acumuladas +
                        dcaComision op precio_base monto inv },
                  inv := debitar_capital inv (monto + dcaComision op precio_base monto inv),
                  salida := DcaSalida.exito
                    { precio_exec := dcaPrecioExec op precio_base inv,
                      precio_base := precio_base,
                      monto_margen := monto,
                      qty_add := dcaQtyExtra op precio_base monto inv,
                      nuevo_prom := (op.precio_entrada * op.cantidad +
                          dcaPrecioExec op precio_base inv * dcaQtyExtra op precio_base monto inv) /
                        (op.cantidad + dcaQtyExtra op precio_base monto inv),
                      apalancamiento := op.apalancamiento,
                      comision := dcaComision op precio_base monto inv } }) := by
  unfold aplicar_dca dcaPrecioExec dcaQtyExtra dcaComision
  simp only [validar_dca_false_iff]
  rfl

/-- C7 — the DCA rejection ladder of `aplicar_dca`: `limite_tamano_operacion`
iff `invested + monto > tamano_max`; past that gate and with a nonzero exec
price (so the unguarded division is defined), `sin_capital` iff
`capital < monto`; past that, `sin_capital_comision` iff
`capital < monto + comision`, the commission computed on the entry-slippage
exec price and the added quantity; and every rejection leaves the operation
and the investor unchanged. -/
theorem c7_dca_rechazos (op : Operation) (precio_base monto : ℚ) (inv : Investor)
    (risk : RiskConfig) :
    ((aplicar_dca op precio_base monto inv risk =
        some { op := op, inv := inv,
               salida := DcaSalida.rechazo_dca "limite_tamano_operacion" }) ↔
      risk.tamano_max < op.capital_invertido + monto) ∧
    (op.capital_invertido + monto ≤ risk.tamano_max →
      dcaPrecioExec op precio_base inv ≠ 0 →
      ((aplicar_dca op precio_base monto inv risk =
          some { op := op, inv := inv,
                 salida := DcaSalida.rechazo_dca "sin_capital" }) ↔
        inv.capital_actual < monto)) ∧
    (op.capital_invertido + monto ≤ risk.tamano_max →
      dcaPrecioExec op precio_base inv ≠ 0 →
      monto ≤ inv.capital_actual →
      ((aplicar_dca op precio_base monto inv risk =
          some { op := op, inv := inv,
                 salida := DcaSalida.rechazo_dca "sin_capital_comision" }) ↔
        inv.capital_actual < monto + dcaComision op precio_base monto inv)) ∧
    (∀ (r : DcaRes) (motivo : String),
      aplicar_dca op precio_base monto inv risk = some r →
      r.salida = DcaSalida.rechazo_dca motivo → r.op = op ∧ r.inv = inv) := by
  refine ⟨?_, ?_, ?_, ?_⟩
  · rw [aplicar_dca_cases]
    by_cases h1 : risk.tamano_max < op.capital_invertido + monto
    · simp [h1]
    · rw [if_neg h1]
      split_ifs <;> simp [h1]
  · intro hmax hpe
    rw [aplicar_dca_cases, if_neg (not_lt.mpr hmax), if_neg hpe]
    by_cases h3 : inv.capital_actual < monto
    · simp [h3]
    · rw [if_neg h3]
      split_ifs <;> simp [h3]
  · intro hmax hpe hcap
    rw [aplicar_dca_cases, if_neg (not_lt.mpr hmax), if_neg hpe,
      if_neg (not_lt.mpr hcap)]
    by_cases h4 : inv.capital_actual < monto + dcaComision op precio_base monto inv
    · simp [h4]
    · rw [if_neg h4]
      split_ifs <;> simp [h4]
  · intro r motivo hr hmot
    rw [aplicar_dca_cases] at hr
    split_ifs at hr
    all_goals first
      | exact Option.noConfusion hr
      | (rw [Option.some.injEq] at hr
         rw [← hr]
         exact ⟨rfl, rfl⟩)
      | (rw [Option.some.injEq] at hr
         rw [← hr] at hmot
         simp at hmot)

theorem c7_dca_rechazos_witness :
    aplicar_dca opW 90 100 { invW with capital_actual := 50 } riskW =
      some { op := opW, inv := { invW with capital_actual := 50 },
             salida := DcaSalida.rechazo_dca "sin_capital" } :=
  ((c7_dca_rechazos opW 90 100 { invW with capital_actual := 50 } riskW).2.1
    (by norm_num [opW, riskW])
    (by norm_num [dcaPrecioExec, aplicar_slippage, opW, invW])).mpr
    (by norm_num [invW])

/-- C8 — DCA success postcondition: when none of the rejection conditions
holds (and neither division is by zero), `aplicar_dca` returns the `dca`
event; the operation's entry price becomes the weighted average
`(entry·qty + exec·qty_extra)/(qty + qty_extra)` with
`qty_extra = monto·leverage/exec`, its quantity grows by `qty_extra`,
invested and blocked capital each grow by `monto`, accumulated commissions by
the commission, and the investor is debited `monto + comision` through the
0-flooring `debitar_capital`. -/
theorem c8_dca_exito (op : Operation) (precio_base monto : ℚ) (inv : Investor)
    (risk : RiskConfig)
    (hmax : op.capital_invertido + monto ≤ risk.tamano_max)
    (hpe : dcaPrecioExec op precio_base inv ≠ 0)
    (hcap : monto ≤ inv.capital_actual)
    (hcap2 : monto + dcaComision op precio_base monto inv ≤ inv.capital_actual)
    (hq : op.cantidad + dcaQtyExtra op precio_base monto inv ≠ 0) :
    aplicar_dca op precio_base monto inv risk =
      some { op :=
               { op with
                 precio_entrada := (op.precio_entrada * op.cantidad +
                     dcaPrecioExec op precio_base inv * dcaQtyExtra op precio_base monto inv) /
                   (op.cantidad + dcaQtyExtra op precio_base monto inv),
                 cantidad := op.cantidad + dcaQtyExtra op precio_base monto inv,
                 capital_invertido := op.capital_invertido + monto,
                 capital_bloqueado := op.capital_bloqueado + monto,
                 comisiones_acumuladas := op.comisiones_acumuladas +
                   dcaComision op precio_base monto inv },
             inv := debitar_capital inv (monto + dcaComision op precio_base monto inv),
             salida := DcaSalida.exito
               { precio_exec := dcaPrecioExec op precio_base inv,
                 precio_base := precio_base,
                 monto_margen := monto,
                 qty_add := dcaQtyExtra op precio_base monto inv,
                 nuevo_prom := (op.precio_entrada * op.cantidad +
                     dcaPrecioExec op precio_base inv * dcaQtyExtra op precio_base monto inv) /
                   (op.cantidad + dcaQtyExtra op precio_base monto inv),
                 apalancamiento := op.apalancamiento,
                 comision := dcaComision op precio_base monto inv } } := by
  rw [aplicar_dca_cases, if_neg (not_lt.mpr hmax), if_neg hpe,
    if_neg (not_lt.mpr hcap), if_neg (not_lt.mpr hcap2), if_neg hq]

theorem c8_dca_exito_witness :
    aplicar_dca opW 90 100 { invW with capital_actual := 1000 } riskW =
      some { op := { opW with precio_entrada := 675/7, cantidad := 28/9,
                              capital_invertido := 300, capital_bloqueado := 300 },
             inv := { invW with capital_actual := 900 },
             salida := DcaSalida.exito
               { precio_exec := 90, precio_base := 90, monto_margen := 100,
                 qty_add := 10/9, nuevo_prom := 675/7, apalancamiento := 1,
                 comision := 0 } } := by
  rw [c8_dca_exito opW 90 100 { invW with capital_actual := 1000 } riskW
    (by norm_num [opW, riskW])
    (by norm_num [dcaPrecioExec, aplicar_slippage, opW, invW])
    (by norm_num [invW])
    (by norm_num [dcaComision, dcaPrecioExec, dcaQtyExtra, aplicar_slippage,
      calcular_comision, opW, invW])
    (by norm_num [dcaQtyExtra, dcaPrecioExec, aplicar_slippage, opW, invW])]
  norm_num [dcaComision, dcaPrecioExec, dcaQtyExtra, aplicar_slippage,
    calcular_comision, debitar_capital, opW, invW]

/-- C4 (counterexample) — an open LONG parent at 100 that allows partials,
with the retracement-without-advance rule enabled, no advance observed
(`precio_max = entrada`), percent threshold 20, on a bar `(high 100, low 79,
close 80)` with SL 0: the retracement from entry is `21/100 ≥ 20/100` and no
earlier rule fires, yet `cerrar_operacion` emits no event at all — the code's
block b4 compares the raw `low` against the *fraction* `20/100`, not the
retracement against it. -/
theorem c4_counterexample :
    ({ opW with stop_loss := 0, precio_max := 100, precio_min := 100 } : Operation).permite_parcial = true ∧
    ({ opW with stop_loss := 0, precio_max := 100, precio_min := 100 } : Operation).strategy.habilitar_retroceso_sin_avance = true ∧
    ({ opW with stop_loss := 0, precio_max := 100, precio_min := 100 } : Operation).precio_max ≤
      ({ opW with stop_loss := 0, precio_max := 100, precio_min := 100 } : Operation).precio_entrada ∧
    ({ opW with stop_loss := 0, precio_max := 100, precio_min := 100 } : Operation).strategy.porc_limite_retro_entrada / 100 ≤
      Operation.retroceso_desde_entrada
        { opW with stop_loss := 0, precio_max := 100, precio_min := 100 } (some 79) (some 100) ∧
    (cerrar_operacion { opW with stop_loss := 0, precio_max := 100, precio_min := 100 }
        100 79 80 invW 5).eventos = [] := by
  refine ⟨rfl, rfl, by norm_num [opW], ?_, ?_⟩
  · norm_num [opW, spW, Operation.retroceso_desde_entrada]
  · norm_num [cerrar_operacion, cerrarOperacionB2, cerrarOperacionB3, cerrarOperacionB4,
      cerrarOperacionB5, StrategyParams.limite_liq_retroceso_entrada,
      StrategyParams.limite_retroceso_max, esHijaCierre,
      tipo_long_short_false, tipo_short_long_false, opW, invW, spW]

/-- C4 (amended) — block b4 of `cerrar_operacion` for a LONG operation with
no advance (`precio_max ≤ entrada`), when neither TP nor total SL triggers and
the minimum-advance margin is positive: a total closure with motive
`Retroceso desde entrada` (not `... (sin avance)`) is emitted exactly when
`low < entrada` and `low ≤ porc_limite_retro_entrada / 100` — an absolute
price bound, not a retracement fraction — and the exit price is the bar's
*low* (not its close) with exit slippage applied; the rule is not gated on
`permite_parcial` nor on `habilitar_retroceso_sin_avance`. -/
theorem c4_amended (op : Operation) (high low close : ℚ) (inv : Investor) (ts : ℤ)
    (hL : op.tipo = Tipo.LONG)
    (hnoadv : op.precio_max ≤ op.precio_entrada)
    (htp : high < op.take_profit)
    (hsl : op.stop_loss < low)
    (hav : 0 < (op.take_profit - op.precio_entrada) * op.strategy.avance_minimo_pct) :
    ((cerrar_operacion op high low close inv ts).eventos ≠ [] ↔
      (low < op.precio_entrada ∧ low ≤ op.strategy.limite_liq_retroceso_entrada)) ∧
    (low < op.precio_entrada → low ≤ op.strategy.limite_liq_retroceso_entrada →
      (cerrar_operacion op high low close inv ts).eventos =
        [{ tipo_evento := "cierre_total", motivo := "Retroceso desde entrada",
           precio_exec := aplicar_slippage low op.tipo inv.slippage_close_pct Lado.salida,
           comision := calcular_comision
             (aplicar_slippage low op.tipo inv.slippage_close_pct Lado.salida)
             op.cantidad inv.commission_pct,
           pnl_net := (op.cerrar_total
             (aplicar_slippage low op.tipo inv.slippage_close_pct Lado.salida)
             (calcular_comision
               (aplicar_slippage low op.tipo inv.slippage_close_pct Lado.salida)
               op.cantidad inv.commission_pct) ts).2 }]) := by
  have h1 : cerrar_operacion op high low close inv ts =
      cerrarOperacionB2 op high low close inv ts := by
    unfold cerrar_operacion
    rw [if_neg]
    rintro (⟨-, hge⟩ | ⟨hS, -⟩)
    · exact absurd hge (not_le.mpr htp)
    · rw [hL] at hS; exact absurd hS (by simp)
  have h2 : cerrarOperacionB2 op high low close inv ts =
      cerrarOperacionB3 op high low close inv ts := by
    unfold cerrarOperacionB2
    simp only [hL]
    split_ifs with hg hc
    · exact absurd hc.1 (not_lt.mpr hnoadv)
    · rfl
    · rfl
  have h3 : cerrarOperacionB3 op high low close inv ts =
      cerrarOperacionB4 op high low close inv ts := by
    unfold cerrarOperacionB3
    rw [if_neg]
    rintro (⟨-, hle⟩ | ⟨hS, -⟩)
    · exact absurd hle (not_le.mpr hsl)
    · rw [hL] at hS; exact absurd hS (by simp)
  have h5 : cerrarOperacionB5 op high low close inv ts =
      { op := op, inv := inv, eventos := [] } := by
    unfold cerrarOperacionB5
    simp only [hL]
    rw [if_neg]
    rintro ⟨-, hge, -⟩
    have : (op.take_profit - op.precio_entrada) * op.strategy.avance_minimo_pct / 100 ≤ 0 := by
      linarith
    linarith
  have h4 : cerrarOperacionB4 op high low close inv ts =
      (if low < op.precio_entrada ∧ low ≤ op.strategy.limite_liq_retroceso_entrada then
        cierreTotalPaso op inv ts low "Retroceso desde entrada" false
      else { op := op, inv := inv, eventos := [] }) := by
    unfold cerrarOperacionB4
    simp only [hL, h5]
    by_cases hc : low < op.precio_entrada ∧ low ≤ op.strategy.limite_liq_retroceso_entrada
    · rw [if_pos ⟨hc.1, hnoadv, hsl, hc.2⟩, if_pos hc]
    · rw [if_neg, if_neg hc]
      rintro ⟨ha, -, -, hb⟩
      exact hc ⟨ha, hb⟩
  rw [h1, h2, h3, h4]
  constructor
  · by_cases hc : low < op.precio_entrada ∧ low ≤ op.strategy.limite_liq_retroceso_entrada
    · rw [if_pos hc]
      simpa [cierreTotalPaso] using hc
    · rw [if_neg hc]
      simpa using hc
  · intro ha hb
    rw [if_pos ⟨ha, hb⟩]
    rfl

theorem c4_amended_witness :
    (cerrar_operacion
        { opW with stop_loss := 0, precio_max := 100, precio_min := 100,
                   strategy := { spW with porc_limite_retro_entrada := 5000 } }
        100 40 45 invW 5).eventos =
      [{ tipo_evento := "cierre_total", motivo := "Retroceso desde entrada",
         precio_exec := 40, comision := 0, pnl_net := -120 }] := by
  have h := (c4_amended
      { opW with stop_loss := 0, precio_max := 100, precio_min := 100,
                 strategy := { spW with porc_limite_retro_entrada := 5000 } }
      100 40 45 invW 5 rfl (by norm_num [opW]) (by norm_num [opW])
      (by norm_num [opW]) (by norm_num [opW, spW])).2
    (by norm_num [opW]) (by norm_num [opW, spW, StrategyParams.limite_liq_retroceso_entrada])
  rw [h]
  norm_num [opW, invW, aplicar_slippage, calcular_comision,
    Operation.cerrar_total, Operation.pnl_gross]

/-- C5 — the code skips the drawdown check on the partial-SL path: a partial
liquidation registering a realized loss of 200 on an investor with initial
capital 1000 and `drawdown_max_pct = 10` crosses the drawdown threshold
(`200 ≥ 100`), yet `drawdown_activo` is still `false` when the cascade
returns; had `verificar_drawdown` run after the registration (as the claim
requires), it would have set it. -/
theorem c5_parcial_omite_drawdown :
    ((cerrar_operacion { opW with cantidad := 10 } 105 60 60
        { invW with drawdown_max_pct := 10 } 5).eventos.map
          (fun e => e.tipo_evento) = ["cierre_parcial"]) ∧
    (cerrar_operacion { opW with cantidad := 10 } 105 60 60
        { invW with drawdown_max_pct := 10 } 5).inv.pnl_realizado_acumulado = -200 ∧
    ({ invW with drawdown_max_pct := 10 } : Investor).capital_inicial *
        (({ invW with drawdown_max_pct := 10 } : Investor).drawdown_max_pct / 100) ≤
      -(cerrar_operacion { opW with cantidad := 10 } 105 60 60
          { invW with drawdown_max_pct := 10 } 5).inv.pnl_realizado_acumulado ∧
    (cerrar_operacion { opW with cantidad := 10 } 105 60 60
        { invW with drawdown_max_pct := 10 } 5).inv.drawdown_activo = false ∧
    ((cerrar_operacion { opW with cantidad := 10 } 105 60 60
        { invW with drawdown_max_pct := 10 } 5).inv.verificar_drawdown).drawdown_activo = true := by
  norm_num [cerrar_operacion, cerrarOperacionB2, cierreParcialPaso,
    Operation.cerrar_parcial_creando_hija, esHijaCierre,
    aplicar_slippage, calcular_comision, Operation.pnl_gross,
    acreditar_capital, Investor.registrar_pnl_realizado, Investor.verificar_drawdown,
    tipo_long_short_false, tipo_short_long_false, opW, invW, spW]


theorem cerrar_total_fst_abierta (op : Operation) (pe c : ℚ) (ts : ℤ) :
    (op.cerrar_total pe c ts).1.abierta = false := by
  unfold Operation.cerrar_total
  split
  · exact (by assumption : op.abierta = false)
  · rfl

theorem cerrar_total_fst_capital_invertido (op : Operation) (pe c : ℚ) (ts : ℤ) :
    (op.cerrar_total pe c ts).1.capital_invertido = op.capital_invertido := by
  unfold Operation.cerrar_total
  split <;> rfl

theorem cierreTotalPaso_shape (op : Operation) (inv : Investor) (ts : ℤ)
    (p : ℚ) (m : String) (cd : Bool) :
    CascadeShape op inv (cierreTotalPaso op inv ts p m cd) := by
  refine Or.inr (Or.inl ⟨_, rfl, rfl, ?_, ?_, ?_, ?_, ?_⟩)
  · cases cd <;>
      simp [cierreTotalPaso, acreditar_capital, Investor.registrar_pnl_realizado,
        verificar_drawdown_capital_actual] <;> ring
  · cases cd <;>
      simp [cierreTotalPaso, acreditar_capital, Investor.registrar_pnl_realizado,
        verificar_drawdown_pnl]
  · cases cd <;>
      simp [cierreTotalPaso, acreditar_capital, Investor.registrar_pnl_realizado,
        verificar_drawdown_inicial]
  · exact cerrar_total_fst_abierta ..
  · exact cerrar_total_fst_capital_invertido ..

theorem cerrar_parcial_some_facts (op : Operation) (pe c : ℚ) (ts : ℤ)
    (r : ParcialRes) (h : op.cerrar_parcial_creando_hija pe c ts = some r) :
    r.hija.capital_invertido =
      op.capital_invertido - op.capital_invertido * (r.qty_liq / op.cantidad) ∧
    r.qty_liq = op.cantidad * (op.strategy.porc_liquidacion_parcial_sl / 100) ∧
    0 < r.qty_liq ∧ r.hija.abierta = true ∧ r.padre.abierta = false ∧
    r.padre.capital_invertido = op.capital_invertido := by
  unfold Operation.cerrar_parcial_creando_hija at h
  dsimp only at h
  split_ifs at h with hq
  rw [Option.some.injEq] at h
  subst h
  exact ⟨rfl, rfl, not_le.mp hq, rfl, rfl, rfl⟩

theorem cerrarOperacionB5_shape (op : Operation) (high low close : ℚ)
    (inv : Investor) (ts : ℤ) :
    CascadeShape op inv (cerrarOperacionB5 op high low close inv ts) := by
  unfold cerrarOperacionB5
  cases h : op.tipo <;> dsimp only <;> split_ifs <;>
    first
      | exact cierreTotalPaso_shape ..
      | exact Or.inl rfl

theorem cerrarOperacionB4_shape (op : Operation) (high low close : ℚ)
    (inv : Investor) (ts : ℤ) :
    CascadeShape op inv (cerrarOperacionB4 op high low close inv ts) := by
  unfold cerrarOperacionB4
  cases h : op.tipo <;> dsimp only <;> split_ifs <;>
    first
      | exact cierreTotalPaso_shape ..
      | exact cerrarOperacionB5_shape ..

theorem cerrarOperacionB3_shape (op : Operation) (high low close : ℚ)
    (inv : Investor) (ts : ℤ) :
    CascadeShape op inv (cerrarOperacionB3 op high low close inv ts) := by
  unfold cerrarOperacionB3
  split_ifs <;>
    first
      | exact cierreTotalPaso_shape ..
      | exact cerrarOperacionB4_shape ..

theorem cierreParcialPaso_shape (op : Operation) (high low close : ℚ)
    (inv : Investor) (ts : ℤ) (p : ℚ) :
    CascadeShape op inv (cierreParcialPaso op high low close inv ts p) := by
  unfold cierreParcialPaso
  rcases hm : op.cerrar_parcial_creando_hija
      (aplicar_slippage p op.tipo inv.slippage_close_pct Lado.salida)
      (calcular_comision (aplicar_slippage p op.tipo inv.slippage_close_pct Lado.salida)
        (op.cantidad * op.strategy.porc_liquidacion_parcial_sl / 100) inv.commission_pct)
      ts with _ | r
  · simp only [hm]
    exact cerrarOperacionB3_shape ..
  · simp only [hm]
    obtain ⟨hc, hq, hpos, hab, hpad, hpk⟩ := cerrar_parcial_some_facts _ _ _ _ _ hm
    refine Or.inr (Or.inr ⟨_, r.hija, r.qty_liq, rfl, rfl, rfl, rfl, ?_, ?_, ?_, ?_, hab, hc, hpos, hq⟩)
    · simp [acreditar_capital, Investor.registrar_pnl_realizado]
    · simp [acreditar_capital, Investor.registrar_pnl_realizado]
    · simp [acreditar_capital, Investor.registrar_pnl_realizado]
    · exact hpad

theorem cerrarOperacionB2_shape (op : Operation) (high low close : ℚ)
    (inv : Investor) (ts : ℤ) :
    CascadeShape op inv (cerrarOperacionB2 op high low close inv ts) := by
  unfold cerrarOperacionB2
  split_ifs with hg
  · cases h : op.tipo <;> dsimp only <;> split_ifs <;>
      first
        | exact cierreParcialPaso_shape ..
        | exact cerrarOperacionB3_shape ..
  · exact cerrarOperacionB3_shape ..

theorem cerrar_operacion_shape (op : Operation) (high low close : ℚ)
    (inv : Investor) (ts : ℤ) :
    CascadeShape op inv (cerrar_operacion op high low close inv ts) := by
  unfold cerrar_operacion
  split_ifs <;>
    first
      | exact cierreTotalPaso_shape ..
      | exact cerrarOperacionB2_shape ..


theorem debitar_capital_eq (inv : Investor) (monto : ℚ)
    (h : monto ≤ inv.capital_actual) :
    debitar_capital inv monto = { inv with capital_actual := inv.capital_actual - monto } := by
  unfold debitar_capital
  dsimp only
  rw [if_neg (not_lt.mpr (by linarith))]

/-- C2 (counterexample) — the partial-SL closure of `opW` (margin 200,
quantity 2, 50% liquidation) on bar `(105, 60, 60)` has
`capital_liq = 100` and `pnl_parcial_net = -40`, so the claim predicts a
credit of `60`; the code instead credits `(200/300)·1 − 40 = −118/3`, leaving
capital `2282/3 ≠ 800 + 60`. -/
theorem c2_counterexample :
    ((cerrar_operacion opW 105 60 60 invW 5).eventos.map
      (fun e => e.tipo_evento) = ["cierre_parcial"]) ∧
    (opW.cerrar_parcial_creando_hija 60 0 5).map (fun r => r.capital_liq) = some 100 ∧
    (opW.cerrar_parcial_creando_hija 60 0 5).map (fun r => r.pnl_parcial_net) = some (-40) ∧
    (cerrar_operacion opW 105 60 60 invW 5).inv.capital_actual ≠
      invW.capital_actual + (100 + (-40)) := by
  refine ⟨?_, ?_, ?_, ?_⟩ <;>
    norm_num [cerrar_operacion, cerrarOperacionB2, cierreParcialPaso,
      Operation.cerrar_parcial_creando_hija, esHijaCierre,
      aplicar_slippage, calcular_comision, Operation.pnl_gross,
      acreditar_capital, Investor.registrar_pnl_realizado,
      tipo_long_short_false, tipo_short_long_false, opW, invW, spW]

/-- C2 (amended) — partial-closure credit amount: for every partial-SL
closure in which a child is created, the investor is credited exactly
`(capital_invertido / (capital_invertido + hija.capital_invertido)) * qty_liq
+ pnl_parcial_net` — the share-weighted expression of closures.py lines
79/116, which multiplies the capital share by the liquidated *quantity* —
not `capital_liq + pnl_parcial_net`. -/
theorem c2_amended (op : Operation) (high low close : ℚ) (inv : Investor) (ts : ℤ)
    (ev : Event) (hija : Operation) (qty : ℚ)
    (hev : (cerrar_operacion op high low close inv ts).eventos = [ev])
    (htipo : ev.tipo_evento = "cierre_parcial")
    (hhija : ev.hija = some hija) (hqty : ev.cantidad = some qty) :
    (cerrar_operacion op high low close inv ts).inv.capital_actual =
      inv.capital_actual +
        ((op.capital_invertido / (op.capital_invertido + hija.capital_invertido)) * qty
          + ev.pnl_net) := by
  rcases cerrar_operacion_shape op high low close inv ts with h |
      ⟨ev', he, ht, -⟩ | ⟨ev', hija', qty', he, ht, hh, hq, hcap, -⟩
  · rw [h] at hev
    exact absurd hev (by simp)
  · rw [he] at hev
    rw [List.cons.injEq] at hev
    rw [hev.1] at ht
    rw [htipo] at ht
    exact absurd ht (by simp)
  · rw [he] at hev
    rw [List.cons.injEq] at hev
    obtain ⟨rfl, -⟩ := hev
    rw [hhija, Option.some.injEq] at hh
    rw [hqty, Option.some.injEq] at hq
    rw [hh, hq]
    exact hcap

theorem c2_amended_witness :
    (cerrar_operacion opW 105 60 60 invW 5).inv.capital_actual = 2282/3 := by
  have h := c2_amended opW 105 60 60 invW 5 evW hijaW 1
    (by norm_num [cerrar_operacion, cerrarOperacionB2, cierreParcialPaso,
      Operation.cerrar_parcial_creando_hija, esHijaCierre,
      aplicar_slippage, calcular_comision, Operation.pnl_gross,
      acreditar_capital, Investor.registrar_pnl_realizado,
      tipo_long_short_false, tipo_short_long_false, opW, invW, spW, evW, hijaW])
    rfl rfl rfl
  rw [h]
  norm_num [opW, invW, hijaW, evW]

/-- C1 (counterexample) — capital conservation breaks on the partial-closure
path: starting from a state satisfying the conservation equation
(capital 800 + margin 200 = initial 1000 + P&L 0 − commissions 0), the
partial closure of `opW` on bar `(105, 60, 60)` credits `2/3 − 40` instead of
`capital_liq + pnl = 100 − 40`, and the resulting state (child margin 100)
violates the equation. -/
theorem c1_counterexample :
    conserva invW 200 0 ∧
    ((cerrar_operacion opW 105 60 60 invW 5).eventos.map
      (fun e => e.tipo_evento) = ["cierre_parcial"]) ∧
    ((cerrar_operacion opW 105 60 60 invW 5).eventos.map
      (fun e => e.hija.map (fun h => h.capital_invertido)) = [some 100]) ∧
    ¬ conserva (cerrar_operacion opW 105 60 60 invW 5).inv 100 0 := by
  refine ⟨by norm_num [conserva, invW], ?_, ?_, ?_⟩ <;>
    norm_num [conserva, cerrar_operacion, cerrarOperacionB2, cierreParcialPaso,
      Operation.cerrar_parcial_creando_hija, esHijaCierre,
      aplicar_slippage, calcular_comision, Operation.pnl_gross,
      acreditar_capital, Investor.registrar_pnl_realizado,
      tipo_long_short_false, tipo_short_long_false, opW, invW, spW]

/-- C1 (amended) — the conservation equation
`capital_actual + Σ invested[open] = capital_inicial + pnl_realizado_acumulado
− Σ entry/DCA commissions` is preserved by opening, by a successful DCA and by
every total closure of the cascade, and is *not* preserved by the partial
closure: there the conserved quantity drifts by exactly
`(K/(K + hija.K))·qty_liq − (K − hija.K)` (credit minus `capital_liq`), where
`K` is the parent's invested capital. -/
theorem c1_conservacion_amended :
    (∀ (inv : Investor) (risk : RiskConfig) (s : SignalDatos) (sp : StrategyParams)
        (apal : ℤ) (abiertas : ℕ) (pc : ℚ) (idv : Option ℤ) (ts : ℤ)
        (inv' : Investor) (op' : Operation) (com I C : ℚ),
      abrir_operacion inv risk s sp apal abiertas pc idv ts = some (inv', op', com) →
      conserva inv I C → conserva inv' (I + op'.capital_invertido) (C + com)) ∧
    (∀ (op : Operation) (pb monto : ℚ) (inv : Investor) (risk : RiskConfig)
        (r : DcaRes) (ev : DcaEvento) (I C : ℚ),
      aplicar_dca op pb monto inv risk = some r →
      r.salida = DcaSalida.exito ev →
      conserva inv I C →
      conserva r.inv (I - op.capital_invertido + r.op.capital_invertido) (C + ev.comision)) ∧
    (∀ (op : Operation) (high low close : ℚ) (inv : Investor) (ts : ℤ) (I C : ℚ),
      conserva inv I C →
      (cerrar_operacion op high low close inv ts).eventos = [] →
      conserva (cerrar_operacion op high low close inv ts).inv I C) ∧
    (∀ (op : Operation) (high low close : ℚ) (inv : Investor) (ts : ℤ) (I C : ℚ)
        (ev : Event),
      conserva inv I C →
      (cerrar_operacion op high low close inv ts).eventos = [ev] →
      ev.tipo_evento = "cierre_total" →
      conserva (cerrar_operacion op high low close inv ts).inv (I - op.capital_invertido) C) ∧
    (∀ (op : Operation) (high low close : ℚ) (inv : Investor) (ts : ℤ) (I C : ℚ)
        (ev : Event) (hija : Operation) (qty : ℚ),
      conserva inv I C →
      (cerrar_operacion op high low close inv ts).eventos = [ev] →
      ev.tipo_evento = "cierre_parcial" → ev.hija = some hija → ev.cantidad = some qty →
      (cerrar_operacion op high low close inv ts).inv.capital_actual +
          (I - op.capital_invertido + hija.capital_invertido) =
        (cerrar_operacion op high low close inv ts).inv.capital_inicial +
          (cerrar_operacion op high low close inv ts).inv.pnl_realizado_acumulado - C +
          ((op.capital_invertido / (op.capital_invertido + hija.capital_invertido)) * qty
            - (op.capital_invertido - hija.capital_invertido))) := by
  refine ⟨?_, ?_, ?_, ?_, ?_⟩
  · intro inv risk s sp apal abiertas pc idv ts inv' op' com I C h hcons
    unfold abrir_operacion at h
    dsimp only at h
    split_ifs at h with h1 h2 h3 h4 h5 h6
    rw [Option.some.injEq, Prod.mk.injEq, Prod.mk.injEq] at h
    obtain ⟨hinv, hop, hcom⟩ := h
    have hval : calcular_monto_operacion inv risk +
        calcular_comision pc (cantidadApertura (calcular_monto_operacion inv risk) apal pc)
          inv.commission_pct ≤ inv.capital_actual := by
      rw [Bool.not_eq_false] at h6
      exact of_decide_eq_true h6
    rw [← hinv, ← hop, ← hcom]
    unfold conserva at hcons ⊢
    rw [debitar_capital_eq _ _ hval]
    dsimp only
    linarith
  · intro op pb monto inv risk r ev I C h hs hcons
    rw [aplicar_dca_cases] at h
    split_ifs at h with h1 h2 h3 h4 h5
    · rw [Option.some.injEq] at h
      rw [← h] at hs
      exact absurd hs (by simp)
    · rw [Option.some.injEq] at h
      rw [← h] at hs
      exact absurd hs (by simp)
    · rw [Option.some.injEq] at h
      rw [← h] at hs
      exact absurd hs (by simp)
    · rw [Option.some.injEq] at h
      rw [← h] at hs
      dsimp only at hs
      rw [DcaSalida.exito.injEq] at hs
      have hcom : ev.comision = dcaComision op pb monto inv := by rw [← hs]
      have hdeb : monto + dcaComision op pb monto inv ≤ inv.capital_actual := by
        rw [not_lt] at h4
        linarith
      rw [← h, hcom]
      unfold conserva at hcons ⊢
      rw [debitar_capital_eq _ _ hdeb]
      dsimp only
      linarith
  · intro op high low close inv ts I C hcons hemp
    rcases cerrar_operacion_shape op high low close inv ts with h |
        ⟨ev', he, -⟩ | ⟨ev', hija', qty', he, -⟩
    · rw [h]
      exact hcons
    · rw [he] at hemp
      exact absurd hemp (by simp)
    · rw [he] at hemp
      exact absurd hemp (by simp)
  · intro op high low close inv ts I C ev hcons hev htipo
    rcases cerrar_operacion_shape op high low close inv ts with h |
        ⟨ev', he, ht, hcap, hpnl, hini, -⟩ | ⟨ev', hija', qty', he, ht, -⟩
    · rw [h] at hev
      exact absurd hev (by simp)
    · unfold conserva at hcons ⊢
      rw [hcap, hpnl, hini]
      linarith
    · rw [he] at hev
      rw [List.cons.injEq] at hev
      rw [hev.1] at ht
      rw [htipo] at ht
      exact absurd ht (by simp)
  · intro op high low close inv ts I C ev hija qty hcons hev htipo hhija hqty
    rcases cerrar_operacion_shape op high low close inv ts with h |
        ⟨ev', he, ht, -⟩ | ⟨ev', hija', qty', he, ht, hh, hq, hcap, hpnl, hini, -⟩
    · rw [h] at hev
      exact absurd hev (by simp)
    · rw [he] at hev
      rw [List.cons.injEq] at hev
      rw [hev.1] at ht
      rw [htipo] at ht
      exact absurd ht (by simp)
    · rw [he] at hev
      rw [List.cons.injEq] at hev
      obtain ⟨rfl, -⟩ := hev
      rw [hhija, Option.some.injEq] at hh
      rw [hqty, Option.some.injEq] at hq
      rw [← hh, ← hq] at hcap
      unfold conserva at hcons
      rw [hcap, hpnl, hini]
      linarith

theorem c1_conservacion_amended_witness :
    conserva (cerrar_operacion opW 101 99 100 invW 5).inv 200 0 := by
  apply c1_conservacion_amended.2.2.1 opW 101 99 100 invW 5 200 0
    (by norm_num [conserva, invW])
  norm_num [cerrar_operacion, cerrarOperacionB2, cerrarOperacionB3, cerrarOperacionB4,
    cerrarOperacionB5, esHijaCierre, StrategyParams.limite_liq_retroceso_entrada,
    StrategyParams.limite_retroceso_max,
    tipo_long_short_false, tipo_short_long_false, opW, invW, spW]

end SimMtf
